import Mathlib

/-!
Shallow embedding of `src/log.c` of libsigrok-mh: the logging facility
(severity/option state, callback registry, default emitter, severity-tagged
emission functions).

Modelling conventions:
* C strings are Lean `String`s (the source only handles byte strings; the
  claims only exercise ASCII content, where C bytes and Lean characters agree).
* The variadic `(format, args)` pair is modelled as the already-rendered
  message string `msg`; `vfprintf` returns the number of characters of the
  rendered message, which is `msg.length` in the model.
* Pointers are `Nat`, with `0` playing the role of `NULL`.
* Wall-clock time (`g_get_real_time`) and the broken-down calendar conversion
  (`gmtime_r`/`localtime_r`) are external inputs, passed in as a `TimeEnv`;
  the conversion is modelled on its success path, with `Tm` holding the
  calendar fields exactly as `strftime` prints them.
* Output to the standard error stream is accumulated as a `String`.
-/

/-- Modelled from the spec: return code for success (`SR_OK` in
`libsigrok.h`, which is not part of `src/`). -/
def SR_OK : Int := 0

/-- Modelled from the spec: the InvalidArgument error return code
(`SR_ERR_ARG` in `libsigrok.h`, which is not part of `src/`). -/
def SR_ERR_ARG : Int := -3

/-- Modelled from the spec: the ordered loglevel enumeration
NONE < ERROR < WARN < INFO < DEBUG < SPEW (`libsigrok.h` is not part of
`src/`; the spec fixes the total numeric order, values 0..5). -/
def SR_LOG_NONE : Int := 0

/-- Modelled from the spec: the ERROR severity. -/
def SR_LOG_ERR : Int := 1

/-- Modelled from the spec: the WARN severity. -/
def SR_LOG_WARN : Int := 2

/-- Modelled from the spec: the INFO severity. -/
def SR_LOG_INFO : Int := 3

/-- Modelled from the spec: the DEBUG severity. -/
def SR_LOG_DBG : Int := 4

/-- Modelled from the spec: the SPEW severity, the most verbose level. -/
def SR_LOG_SPEW : Int := 5

/-- Modelled from the spec: the empty log-option mask (`SR_LOG_NOOPTS`). -/
def SR_LOG_NOOPTS : Int := 0

/-- Modelled from the spec: the DATE option flag, one distinct bit of the
option bitmask over {DATE, TIME, TIME_MS, TIME_US, UTC} (`libsigrok.h` is
not part of `src/`). -/
def SR_LOG_DATE : Int := 1

/-- Modelled from the spec: the TIME option flag bit. -/
def SR_LOG_TIME : Int := 2

/-- Modelled from the spec: the TIME_MS option flag bit. -/
def SR_LOG_TIME_MS : Int := 4

/-- Modelled from the spec: the TIME_US option flag bit. -/
def SR_LOG_TIME_US : Int := 8

/-- Modelled from the spec: the UTC option flag bit. -/
def SR_LOG_UTC : Int := 16

/-- `LOGDOMAIN_MAXLEN` from `src/log.c` line 68. -/
def LOGDOMAIN_MAXLEN : Nat := 30

/-- `LOGDOMAIN_DEFAULT` from `src/log.c` line 69. -/
def LOGDOMAIN_DEFAULT : String := "sr: "

/-- Pointers: `Nat`, with 0 as `NULL`. -/
abbrev Ptr := Nat

/-- The address of the built-in default emitter `sr_logv`, used as the
default value of the callback pointer `sr_log_cb`. -/
def sr_logv_ptr : Ptr := 1

/-- Broken-down calendar time as printed by `strftime`: `year` is the four
digits of `%Y`, `mon` the two digits of `%m`, `mday` of `%d`, `hour` of
`%H`, `minute` of `%M`, `sec` of `%S`. -/
structure Tm where
  year : Nat
  mon : Nat
  mday : Nat
  hour : Nat
  minute : Nat
  sec : Nat
deriving DecidableEq

/-- External time inputs of one emitter run: `dt_us` is the value returned
by `g_get_real_time()` (microseconds), `tm` the broken-down time produced by
the (successful) `gmtime_r`/`localtime_r` conversion. -/
structure TimeEnv where
  dt_us : Nat
  tm : Tm
deriving DecidableEq

/-- The process-wide mutable state of `src/log.c`: `cur_loglevel` (line 48),
`cur_logopts` (line 51), `sr_log_domain` (line 71, the content of the
NUL-terminated char array), `sr_log_cb` (line 58) and `sr_log_cb_data`
(line 64). -/
structure LogState where
  cur_loglevel : Int
  cur_logopts : Int
  sr_log_domain : String
  sr_log_cb : Ptr
  sr_log_cb_data : Ptr
deriving DecidableEq

/-- The initial state of `src/log.c`: threshold `SR_LOG_WARN`, no options,
domain `"sr: "`, callback `sr_logv`, callback data `NULL`. -/
def initialState : LogState :=
  { cur_loglevel := SR_LOG_WARN
    cur_logopts := SR_LOG_NOOPTS
    sr_log_domain := LOGDOMAIN_DEFAULT
    sr_log_cb := sr_logv_ptr
    sr_log_cb_data := 0 }

/-- Zero-padded decimal rendering, as `printf` does for `%0Nu` and
`strftime` for its numeric fields: at least `width` characters. -/
def padNum (width : Nat) (n : Nat) : String :=
  let s := toString n
  String.mk (List.replicate (width - s.length) '0') ++ s

/-- The `strftime "%Y%m%d "` rendering of `src/log.c` line 305. -/
def dateString (tm : Tm) : String :=
  padNum 4 tm.year ++ padNum 2 tm.mon ++ padNum 2 tm.mday ++ " "

/-- The `strftime "%H%M%S"` rendering of `src/log.c` line 309. -/
def hmsString (tm : Tm) : String :=
  padNum 2 tm.hour ++ padNum 2 tm.minute ++ padNum 2 tm.sec

/-- The date part of the timestamp: `src/log.c` lines 304-307 (inner
branch; only reachable when some date/time flag is set). -/
def dateSegment (st : LogState) (env : TimeEnv) : String :=
  if Int.land st.cur_logopts SR_LOG_DATE ≠ 0 then dateString env.tm else ""

/-- The time part of the timestamp: `src/log.c` lines 308-317. `HHMMSS`,
then a comma and the six-digit microsecond remainder plus a space if
`SR_LOG_TIME_US` is set, else a comma and the three-digit millisecond
remainder plus a space if `SR_LOG_TIME_MS` is set, else a single space. -/
def timeSegment (st : LogState) (env : TimeEnv) : String :=
  if Int.land st.cur_logopts (Int.lor SR_LOG_TIME (Int.lor SR_LOG_TIME_MS SR_LOG_TIME_US)) ≠ 0 then
    hmsString env.tm ++
      (if Int.land st.cur_logopts SR_LOG_TIME_US ≠ 0 then
        "," ++ padNum 6 (env.dt_us % 1000000) ++ " "
      else if Int.land st.cur_logopts SR_LOG_TIME_MS ≠ 0 then
        "," ++ padNum 3 ((env.dt_us / 1000) % 1000) ++ " "
      else " ")
  else ""

/-- The whole timestamp block: `src/log.c` lines 283-318 (guarded by any of
DATE, TIME, TIME_MS, TIME_US being set). -/
def tsSegment (st : LogState) (env : TimeEnv) : String :=
  if Int.land st.cur_logopts
      (Int.lor SR_LOG_DATE (Int.lor SR_LOG_TIME (Int.lor SR_LOG_TIME_MS SR_LOG_TIME_US))) ≠ 0 then
    dateSegment st env ++ timeSegment st env
  else ""

/-- The default emitter `sr_logv` (`src/log.c` lines 269-327). Returns the
pair (return value `ret`, text written to the standard error stream).
If `loglevel > cur_loglevel` it writes nothing and returns `SR_OK`
(line 277). Otherwise `ret` accumulates the `fprintf` return values of the
timestamp block (lines 306, 310, 312, 314, 316) and of the
`vfprintf` of the message body (line 323); the domain `fprintf` (line 322)
and the trailing newline `fprintf` (line 324) do not add to `ret`. -/
def sr_logv (st : LogState) (env : TimeEnv) (loglevel : Int) (msg : String) :
    Int × String :=
  if loglevel > st.cur_loglevel then
    (SR_OK, "")
  else
    ((tsSegment st env).length + msg.length,
     tsSegment st env ++
       (if st.sr_log_domain ≠ "" then st.sr_log_domain else "") ++
       msg ++ "\n")

/-- The record of one invocation of the registered callback: which function
pointer was called, with which `cb_data`, severity tag and message. -/
structure CallRecord where
  cb : Ptr
  cb_data : Ptr
  loglevel : Int
  msg : String
deriving DecidableEq

/-- One dispatch through the callback registry, as performed by `sr_log`
and the severity-tagged functions (`src/log.c` lines 330-405): the
registered callback `sr_log_cb` is called with `sr_log_cb_data`, the
severity tag and the message — unconditionally, with no level check at this
layer. The second component is the default emitter's (return, output) when
the registered callback is `sr_logv`, and `none` when a custom callback is
registered (its behaviour is external code). -/
def dispatch (st : LogState) (env : TimeEnv) (loglevel : Int) (msg : String) :
    CallRecord × Option (Int × String) :=
  (⟨st.sr_log_cb, st.sr_log_cb_data, loglevel, msg⟩,
   if st.sr_log_cb = sr_logv_ptr then some (sr_logv st env loglevel msg) else none)

/-- `sr_log` (`src/log.c` lines 330-340). -/
def sr_log (st : LogState) (env : TimeEnv) (loglevel : Int) (msg : String) :
    CallRecord × Option (Int × String) :=
  dispatch st env loglevel msg

/-- `sr_spew` (`src/log.c` lines 343-353). -/
def sr_spew (st : LogState) (env : TimeEnv) (msg : String) :
    CallRecord × Option (Int × String) :=
  dispatch st env SR_LOG_SPEW msg

/-- `sr_dbg` (`src/log.c` lines 356-366). -/
def sr_dbg (st : LogState) (env : TimeEnv) (msg : String) :
    CallRecord × Option (Int × String) :=
  dispatch st env SR_LOG_DBG msg

/-- `sr_info` (`src/log.c` lines 369-379). -/
def sr_info (st : LogState) (env : TimeEnv) (msg : String) :
    CallRecord × Option (Int × String) :=
  dispatch st env SR_LOG_INFO msg

/-- `sr_warn` (`src/log.c` lines 382-392). -/
def sr_warn (st : LogState) (env : TimeEnv) (msg : String) :
    CallRecord × Option (Int × String) :=
  dispatch st env SR_LOG_WARN msg

/-- `sr_err` (`src/log.c` lines 395-405). -/
def sr_err (st : LogState) (env : TimeEnv) (msg : String) :
    CallRecord × Option (Int × String) :=
  dispatch st env SR_LOG_ERR msg

/-- The observable effect of one internal `sr_err`/`sr_dbg` call inside a
setter: the invocation record, and the text the default emitter wrote to
the standard error stream (empty when a custom callback is registered).  -/
structure EmitEffect where
  record : CallRecord
  output : String
deriving DecidableEq

/-- Builds the `EmitEffect` of dispatching one message in state `st`. -/
def emitEffect (st : LogState) (env : TimeEnv) (loglevel : Int) (msg : String) :
    EmitEffect :=
  { record := ⟨st.sr_log_cb, st.sr_log_cb_data, loglevel, msg⟩
    output := if st.sr_log_cb = sr_logv_ptr then (sr_logv st env loglevel msg).2 else "" }

/-- `sr_log_loglevel_set` (`src/log.c` lines 92-104). Returns
(return value, state after the call, internal emissions in order). -/
def sr_log_loglevel_set (st : LogState) (env : TimeEnv) (loglevel : Int) :
    Int × LogState × List EmitEffect :=
  if loglevel < SR_LOG_NONE ∨ loglevel > SR_LOG_SPEW then
    (SR_ERR_ARG, st,
     [emitEffect st env SR_LOG_ERR ("Invalid loglevel " ++ toString loglevel ++ ".")])
  else
    (SR_OK, { st with cur_loglevel := loglevel },
     [emitEffect { st with cur_loglevel := loglevel } env SR_LOG_DBG
       ("libsigrok loglevel set to " ++ toString loglevel ++ ".")])

/-- `sr_log_loglevel_get` (`src/log.c` lines 113-116). -/
def sr_log_loglevel_get (st : LogState) : Int :=
  st.cur_loglevel

/-- The union of all option flags, the upper bound of the range check in
`sr_log_logopts_set` (`src/log.c` line 144). -/
def SR_LOG_ALLOPTS : Int :=
  Int.lor SR_LOG_DATE (Int.lor SR_LOG_TIME (Int.lor SR_LOG_TIME_MS (Int.lor SR_LOG_TIME_US SR_LOG_UTC)))

/-- `sr_log_logopts_set` (`src/log.c` lines 141-155). -/
def sr_log_logopts_set (st : LogState) (env : TimeEnv) (logopts : Int) :
    Int × LogState × List EmitEffect :=
  if logopts < SR_LOG_NOOPTS ∨ logopts > SR_LOG_ALLOPTS then
    (SR_ERR_ARG, st,
     [emitEffect st env SR_LOG_ERR ("Invalid log options " ++ toString logopts ++ ".")])
  else
    (SR_OK, { st with cur_logopts := logopts },
     [emitEffect { st with cur_logopts := logopts } env SR_LOG_DBG
       ("libsigrok log options set to " ++ toString logopts ++ ".")])

/-- `sr_log_logopts_get` (`src/log.c` lines 164-167). -/
def sr_log_logopts_get (st : LogState) : Int :=
  st.cur_logopts

/-- `sr_log_logdomain_set` (`src/log.c` lines 187-200). The argument is
`none` for a NULL pointer. On a non-null input,
`snprintf(dst, LOGDOMAIN_MAXLEN, "%s", logdomain)` stores at most
`LOGDOMAIN_MAXLEN - 1 = 29` characters (one byte of the size argument is
reserved for the terminating NUL). -/
def sr_log_logdomain_set (st : LogState) (env : TimeEnv) (logdomain : Option String) :
    Int × LogState × List EmitEffect :=
  match logdomain with
  | none =>
    (SR_ERR_ARG, st,
     [emitEffect st env SR_LOG_ERR "log: sr_log_logdomain_set: logdomain was NULL"])
  | some s =>
    (SR_OK, { st with sr_log_domain := s.take (LOGDOMAIN_MAXLEN - 1) },
     [emitEffect { st with sr_log_domain := s.take (LOGDOMAIN_MAXLEN - 1) } env SR_LOG_DBG
       ("Log domain set to " ++ s.take (LOGDOMAIN_MAXLEN - 1) ++ ".")])

/-- `sr_log_logdomain_get` (`src/log.c` lines 211-214): `g_strdup` of the
stored domain (the model has value semantics, so the copy is the value). -/
def sr_log_logdomain_get (st : LogState) : String :=
  st.sr_log_domain

/-- `sr_log_callback_set` (`src/log.c` lines 232-245). `cb = 0` models a
NULL function pointer; `cb_data` is allowed to be NULL (line 239). -/
def sr_log_callback_set (st : LogState) (env : TimeEnv) (cb : Ptr) (cb_data : Ptr) :
    Int × LogState × List EmitEffect :=
  if cb = 0 then
    (SR_ERR_ARG, st,
     [emitEffect st env SR_LOG_ERR "log: sr_log_callback_set: cb was NULL"])
  else
    (SR_OK, { st with sr_log_cb := cb, sr_log_cb_data := cb_data }, [])

/-- `sr_log_callback_set_default` (`src/log.c` lines 257-267): restores
`sr_logv` as the callback, clears `sr_log_cb_data` to NULL, returns `SR_OK`
and deliberately emits nothing. -/
def sr_log_callback_set_default (st : LogState) :
    Int × LogState × List EmitEffect :=
  (SR_OK, { st with sr_log_cb := sr_logv_ptr, sr_log_cb_data := 0 }, [])

/-- A fixed concrete time environment used by concrete evaluations. -/
def env0 : TimeEnv :=
  { dt_us := 1700000000123456, tm := ⟨2023, 11, 14, 22, 13, 20⟩ }

/-- Helper: the default emitter writes nothing exactly when the requested
severity is numerically greater than the current threshold (its output
otherwise ends in a newline and is non-empty). -/
theorem sr_logv_snd_eq_empty_iff (st : LogState) (env : TimeEnv) (S : Int)
    (msg : String) : (sr_logv st env S msg).2 = "" ↔ st.cur_loglevel < S := by
  by_cases hgt : st.cur_loglevel < S
  · simp [sr_logv, hgt]
  · have hne : (sr_logv st env S msg).2 ≠ "" := by
      unfold sr_logv
      rw [if_neg hgt]
      intro hcontr
      have h2 := congrArg String.length hcontr
      simp [String.length_append] at h2
      exact absurd h2.2 (by decide)
    exact iff_of_false hne hgt

/-- C1: an emission at severity `S` processed by the default emitter with
current threshold `T = cur_loglevel` produces output iff `S ≤ T`; when
`S > T` the emitter writes nothing and returns `SR_OK`. -/
theorem sr_logv_filters_by_threshold (st : LogState) (env : TimeEnv) (S : Int)
    (msg : String) :
    ((sr_logv st env S msg).2 ≠ "" ↔ S ≤ st.cur_loglevel) ∧
    (st.cur_loglevel < S → sr_logv st env S msg = (SR_OK, "")) := by
  refine ⟨?_, fun hgt => ?_⟩
  · rw [ne_eq, sr_logv_snd_eq_empty_iff, not_lt]
  · unfold sr_logv
    rw [if_pos hgt]

/-- Witness for C1 at a concrete suppressed input: INFO against the default
WARN threshold is filtered. -/
theorem sr_logv_filters_by_threshold_witness :
    sr_logv initialState env0 SR_LOG_INFO "x" = (SR_OK, "") :=
  (sr_logv_filters_by_threshold initialState env0 SR_LOG_INFO "x").2 (by decide)

set_option maxRecDepth 4000 in
/-- C2 (code bug evaluation): storing a 40-character domain keeps only the
first 29 characters, not the 30 the function's own documentation (and the
spec) promise, because `snprintf` is called with size `LOGDOMAIN_MAXLEN`
and reserves one byte of it for the terminating NUL. -/
theorem logdomain_set_truncates_to_29 :
    (sr_log_logdomain_set initialState env0
        (some (String.mk (List.replicate 40 'a')))).1 = SR_OK ∧
    sr_log_logdomain_get
        (sr_log_logdomain_set initialState env0
          (some (String.mk (List.replicate 40 'a')))).2.1
      = String.mk (List.replicate 29 'a') ∧
    sr_log_logdomain_get
        (sr_log_logdomain_set initialState env0
          (some (String.mk (List.replicate 40 'a')))).2.1
      ≠ (String.mk (List.replicate 40 'a')).take 30 := by
  refine ⟨by decide, by decide, by decide⟩

/-- C3 counterexample: with the default state (domain `"sr: "`, threshold
WARN, no options), emitting `"x"` at ERROR writes the six characters
`"sr: x\n"` but returns 1 — the return value is not the total count of
characters written, because the domain and the trailing newline are not
counted. -/
theorem sr_logv_ret_omits_domain_and_newline_cex :
    (sr_logv initialState env0 SR_LOG_ERR "x").1 = 1 ∧
    (sr_logv initialState env0 SR_LOG_ERR "x").2 = "sr: x\n" ∧
    (sr_logv initialState env0 SR_LOG_ERR "x").1
      ≠ ((sr_logv initialState env0 SR_LOG_ERR "x").2.length : Int) := by
  refine ⟨by decide, by decide, by decide⟩

/-- C3 (amended): when the default emitter produces output, it returns the
count of characters written for the timestamp segment and the formatted
message body only; the domain and the trailing newline are written but not
counted. -/
theorem sr_logv_ret_counts_timestamp_and_body (st : LogState) (env : TimeEnv)
    (S : Int) (msg : String) (h : S ≤ st.cur_loglevel) :
    (sr_logv st env S msg).1 = ((tsSegment st env).length + msg.length : Int) := by
  unfold sr_logv
  rw [if_neg (not_lt.mpr h)]

/-- Witness for the amended C3 at a concrete input. -/
theorem sr_logv_ret_counts_timestamp_and_body_witness :
    (sr_logv initialState env0 SR_LOG_ERR "x").1
      = ((tsSegment initialState env0).length + ("x".length : Nat) : Int) :=
  sr_logv_ret_counts_timestamp_and_body initialState env0 SR_LOG_ERR "x" (by decide)

/-- C4 counterexample: `SR_LOG_NONE` is accepted by `sr_log_loglevel_set`
(it returns `SR_OK`), and under that validly configured threshold an
ERROR-severity emission is suppressed by the default emitter. -/
theorem set_level_none_suppresses_error :
    (sr_log_loglevel_set initialState env0 SR_LOG_NONE).1 = SR_OK ∧
    sr_logv (sr_log_loglevel_set initialState env0 SR_LOG_NONE).2.1 env0
        SR_LOG_ERR "boom"
      = (SR_OK, "") := by
  refine ⟨by decide, by decide⟩

/-- C4 (amended): under every valid configuration whose threshold is at
least ERROR (every accepted level except NONE), an ERROR-severity emission
passes the default emitter's filter and reaches the sink; NONE is the only
valid threshold that suppresses error messages. -/
theorem error_reaches_sink_above_none (st : LogState) (env : TimeEnv) (L : Int)
    (msg : String) (h1 : SR_LOG_ERR ≤ L) (h2 : L ≤ SR_LOG_SPEW) :
    (sr_log_loglevel_set st env L).1 = SR_OK ∧
    (sr_logv (sr_log_loglevel_set st env L).2.1 env SR_LOG_ERR msg).2 ≠ "" := by
  have hvalid : ¬(L < SR_LOG_NONE ∨ L > SR_LOG_SPEW) := by
    unfold SR_LOG_ERR at h1
    unfold SR_LOG_SPEW at h2 ⊢
    unfold SR_LOG_NONE
    omega
  refine ⟨?_, ?_⟩
  · unfold sr_log_loglevel_set
    rw [if_neg hvalid]
  · unfold sr_log_loglevel_set
    rw [if_neg hvalid]
    rw [ne_eq, sr_logv_snd_eq_empty_iff, not_lt]
    exact h1

/-- Witness for the amended C4: threshold ERROR lets an error through. -/
theorem error_reaches_sink_above_none_witness :
    (sr_log_loglevel_set initialState env0 SR_LOG_ERR).1 = SR_OK ∧
    (sr_logv (sr_log_loglevel_set initialState env0 SR_LOG_ERR).2.1 env0
        SR_LOG_ERR "boom").2 ≠ "" :=
  error_reaches_sink_above_none initialState env0 SR_LOG_ERR "boom"
    (by decide) (by decide)

/-- C5: a level outside [NONE, SPEW] makes `sr_log_loglevel_set` return
`SR_ERR_ARG` with the state unchanged, and a mask outside
[0, union-of-all-flags] makes `sr_log_logopts_set` return `SR_ERR_ARG` with
the state unchanged; in both cases exactly one emission is dispatched
through the registered callback before returning, tagged with the ERROR
severity. -/
theorem invalid_setters_reject_and_report (st : LogState) (env : TimeEnv)
    (L M : Int) :
    ((L < SR_LOG_NONE ∨ L > SR_LOG_SPEW) →
      (sr_log_loglevel_set st env L).1 = SR_ERR_ARG ∧
      (sr_log_loglevel_set st env L).2.1 = st ∧
      ((sr_log_loglevel_set st env L).2.2.map fun e => (e.record.cb, e.record.loglevel))
        = [(st.sr_log_cb, SR_LOG_ERR)]) ∧
    ((M < SR_LOG_NOOPTS ∨ M > SR_LOG_ALLOPTS) →
      (sr_log_logopts_set st env M).1 = SR_ERR_ARG ∧
      (sr_log_logopts_set st env M).2.1 = st ∧
      ((sr_log_logopts_set st env M).2.2.map fun e => (e.record.cb, e.record.loglevel))
        = [(st.sr_log_cb, SR_LOG_ERR)]) := by
  refine ⟨fun h => ?_, fun h => ?_⟩
  · unfold sr_log_loglevel_set
    rw [if_pos h]
    exact ⟨rfl, rfl, rfl⟩
  · unfold sr_log_logopts_set
    rw [if_pos h]
    exact ⟨rfl, rfl, rfl⟩

/-- Witness for C5 at concrete invalid inputs: level 6 and mask 32. -/
theorem invalid_setters_reject_and_report_witness :
    (sr_log_loglevel_set initialState env0 6).1 = SR_ERR_ARG ∧
    (sr_log_logopts_set initialState env0 32).1 = SR_ERR_ARG :=
  ⟨((invalid_setters_reject_and_report initialState env0 6 32).1 (by decide)).1,
   ((invalid_setters_reject_and_report initialState env0 6 32).2 (by decide)).1⟩

/-- C6: for every valid level L in [NONE, SPEW], `sr_log_loglevel_set`
returns `SR_OK` and a subsequent `sr_log_loglevel_get` returns L; the
single debug-level confirmation emission is built from the state that
already holds the new threshold, so (when the default emitter is the
registered callback) it is suppressed exactly when the *new* threshold L is
below DEBUG. -/
theorem set_level_roundtrip_new_threshold (st : LogState) (env : TimeEnv)
    (L : Int) (h1 : SR_LOG_NONE ≤ L) (h2 : L ≤ SR_LOG_SPEW) :
    (sr_log_loglevel_set st env L).1 = SR_OK ∧
    sr_log_loglevel_get (sr_log_loglevel_set st env L).2.1 = L ∧
    (sr_log_loglevel_set st env L).2.2.length = 1 ∧
    ∀ e ∈ (sr_log_loglevel_set st env L).2.2,
      e.record.loglevel = SR_LOG_DBG ∧
      (st.sr_log_cb = sr_logv_ptr → (e.output = "" ↔ L < SR_LOG_DBG)) := by
  have hvalid : ¬(L < SR_LOG_NONE ∨ L > SR_LOG_SPEW) := by
    unfold SR_LOG_NONE at h1 ⊢
    unfold SR_LOG_SPEW at h2 ⊢
    omega
  refine ⟨?_, ?_, ?_, ?_⟩
  · unfold sr_log_loglevel_set
    rw [if_neg hvalid]
  · unfold sr_log_loglevel_set
    rw [if_neg hvalid]
    rfl
  · unfold sr_log_loglevel_set
    rw [if_neg hvalid]
    rfl
  · intro e he
    unfold sr_log_loglevel_set at he
    rw [if_neg hvalid] at he
    simp only [List.mem_singleton] at he
    subst he
    refine ⟨rfl, fun hcb => ?_⟩
    show (if _ = sr_logv_ptr then _ else "") = "" ↔ _
    rw [if_pos hcb, sr_logv_snd_eq_empty_iff]

/-- Witness for C6 at the concrete valid level DEBUG. -/
theorem set_level_roundtrip_new_threshold_witness :
    (sr_log_loglevel_set initialState env0 SR_LOG_DBG).1 = SR_OK ∧
    sr_log_loglevel_get (sr_log_loglevel_set initialState env0 SR_LOG_DBG).2.1
      = SR_LOG_DBG :=
  ⟨(set_level_roundtrip_new_threshold initialState env0 SR_LOG_DBG
      (by decide) (by decide)).1,
   (set_level_roundtrip_new_threshold initialState env0 SR_LOG_DBG
      (by decide) (by decide)).2.1⟩

/-- C7: `sr_log_callback_set` with a NULL function pointer returns
`SR_ERR_ARG` and leaves the whole state (in particular the registered
callback and its context) unchanged; with a non-null function pointer it
returns `SR_OK` and replaces both the callback pointer and the context
value, a NULL context included. -/
theorem callback_set_null_rejected_nonnull_replaces (st : LogState)
    (env : TimeEnv) (cb cb_data : Ptr) :
    (cb = 0 →
      (sr_log_callback_set st env cb cb_data).1 = SR_ERR_ARG ∧
      (sr_log_callback_set st env cb cb_data).2.1 = st) ∧
    (cb ≠ 0 →
      (sr_log_callback_set st env cb cb_data).1 = SR_OK ∧
      (sr_log_callback_set st env cb cb_data).2.1.sr_log_cb = cb ∧
      (sr_log_callback_set st env cb cb_data).2.1.sr_log_cb_data = cb_data) := by
  refine ⟨fun h => ?_, fun h => ?_⟩
  · unfold sr_log_callback_set
    rw [if_pos h]
    exact ⟨rfl, rfl⟩
  · unfold sr_log_callback_set
    rw [if_neg h]
    exact ⟨rfl, rfl, rfl⟩

/-- Witness for C7: rejecting NULL, and accepting a non-null callback with
a NULL context. -/
theorem callback_set_null_rejected_nonnull_replaces_witness :
    ((sr_log_callback_set initialState env0 0 3).1 = SR_ERR_ARG ∧
      (sr_log_callback_set initialState env0 0 3).2.1 = initialState) ∧
    ((sr_log_callback_set initialState env0 7 0).1 = SR_OK ∧
      (sr_log_callback_set initialState env0 7 0).2.1.sr_log_cb = 7 ∧
      (sr_log_callback_set initialState env0 7 0).2.1.sr_log_cb_data = 0) :=
  ⟨(callback_set_null_rejected_nonnull_replaces initialState env0 0 3).1 rfl,
   (callback_set_null_rejected_nonnull_replaces initialState env0 7 0).2
     (by decide)⟩

/-- C8: `sr_log_callback_set_default` returns `SR_OK` from every state,
installs the default emitter as the callback, clears the context to NULL,
and dispatches no emission of its own. -/
theorem callback_set_default_unconditional (st : LogState) :
    (sr_log_callback_set_default st).1 = SR_OK ∧
    (sr_log_callback_set_default st).2.1.sr_log_cb = sr_logv_ptr ∧
    (sr_log_callback_set_default st).2.1.sr_log_cb_data = 0 ∧
    (sr_log_callback_set_default st).2.2 = [] :=
  ⟨rfl, rfl, rfl, rfl⟩

/-- C9: when any TIME variant flag is set, the time segment is `HHMMSS`
followed by a comma, the six-digit microsecond remainder of `dt_us` and a
space when TIME_US is set (whether or not TIME_MS is also set — TIME_US
takes priority); else by a comma, the three-digit millisecond remainder
and a space when TIME_MS is set; else by a single space. -/
theorem timeSegment_variants (st : LogState) (env : TimeEnv)
    (hany : Int.land st.cur_logopts
      (Int.lor SR_LOG_TIME (Int.lor SR_LOG_TIME_MS SR_LOG_TIME_US)) ≠ 0) :
    (Int.land st.cur_logopts SR_LOG_TIME_US ≠ 0 →
      timeSegment st env
        = hmsString env.tm ++ ("," ++ padNum 6 (env.dt_us % 1000000) ++ " ")) ∧
    (Int.land st.cur_logopts SR_LOG_TIME_US = 0 →
      Int.land st.cur_logopts SR_LOG_TIME_MS ≠ 0 →
      timeSegment st env
        = hmsString env.tm ++ ("," ++ padNum 3 ((env.dt_us / 1000) % 1000) ++ " ")) ∧
    (Int.land st.cur_logopts SR_LOG_TIME_US = 0 →
      Int.land st.cur_logopts SR_LOG_TIME_MS = 0 →
      timeSegment st env = hmsString env.tm ++ " ") := by
  refine ⟨fun hus => ?_, fun hus hms => ?_, fun hus hms => ?_⟩
  · unfold timeSegment
    rw [if_pos hany, if_pos hus]
  · unfold timeSegment
    rw [if_pos hany, if_neg (fun hn => hn hus), if_pos hms]
  · unfold timeSegment
    rw [if_pos hany, if_neg (fun hn => hn hus), if_neg (fun hn => hn hms)]

/-- Witness for C9 with both TIME_US and TIME_MS set: only the microsecond
form is produced. -/
theorem timeSegment_variants_witness :
    timeSegment { initialState with
        cur_logopts := Int.lor SR_LOG_TIME_MS SR_LOG_TIME_US } env0
      = hmsString env0.tm ++ ("," ++ padNum 6 (env0.dt_us % 1000000) ++ " ") :=
  (timeSegment_variants
    { initialState with cur_logopts := Int.lor SR_LOG_TIME_MS SR_LOG_TIME_US }
    env0 (by decide)).1 (by decide)

/-- C10: each severity-tagged emission function invokes the registered
callback with its fixed severity tag and the stored context, for every
value of the current threshold (the threshold field plays no role at this
layer); when the registered callback is not the default emitter, no
default-emitter run takes place at all, so no threshold-based suppression
happens anywhere on the path. -/
theorem tagged_emitters_ignore_threshold (st : LogState) (env : TimeEnv)
    (msg : String) (T : Int) :
    ((sr_spew { st with cur_loglevel := T } env msg).1
        = ⟨st.sr_log_cb, st.sr_log_cb_data, SR_LOG_SPEW, msg⟩ ∧
      (sr_dbg { st with cur_loglevel := T } env msg).1
        = ⟨st.sr_log_cb, st.sr_log_cb_data, SR_LOG_DBG, msg⟩ ∧
      (sr_info { st with cur_loglevel := T } env msg).1
        = ⟨st.sr_log_cb, st.sr_log_cb_data, SR_LOG_INFO, msg⟩ ∧
      (sr_warn { st with cur_loglevel := T } env msg).1
        = ⟨st.sr_log_cb, st.sr_log_cb_data, SR_LOG_WARN, msg⟩ ∧
      (sr_err { st with cur_loglevel := T } env msg).1
        = ⟨st.sr_log_cb, st.sr_log_cb_data, SR_LOG_ERR, msg⟩) ∧
    (st.sr_log_cb ≠ sr_logv_ptr →
      (sr_spew { st with cur_loglevel := T } env msg).2 = none ∧
      (sr_dbg { st with cur_loglevel := T } env msg).2 = none ∧
      (sr_info { st with cur_loglevel := T } env msg).2 = none ∧
      (sr_warn { st with cur_loglevel := T } env msg).2 = none ∧
      (sr_err { st with cur_loglevel := T } env msg).2 = none) := by
  refine ⟨⟨rfl, rfl, rfl, rfl, rfl⟩, fun hcb => ?_⟩
  refine ⟨?_, ?_, ?_, ?_, ?_⟩ <;>
    · show (if _ = sr_logv_ptr then _ else none) = none
      rw [if_neg hcb]

/-- Witness for C10: a custom callback (pointer 7) with threshold NONE is
still invoked by `sr_err`, and no default-emitter run occurs. -/
theorem tagged_emitters_ignore_threshold_witness :
    (sr_err { initialState with
        sr_log_cb := 7, sr_log_cb_data := 3, cur_loglevel := SR_LOG_NONE }
      env0 "m").1 = ⟨7, 3, SR_LOG_ERR, "m"⟩ ∧
    (sr_err { initialState with
        sr_log_cb := 7, sr_log_cb_data := 3, cur_loglevel := SR_LOG_NONE }
      env0 "m").2 = none :=
  ⟨(tagged_emitters_ignore_threshold
      { initialState with sr_log_cb := 7, sr_log_cb_data := 3 } env0 "m"
      SR_LOG_NONE).1.2.2.2.2,
   ((tagged_emitters_ignore_threshold
      { initialState with sr_log_cb := 7, sr_log_cb_data := 3 } env0 "m"
      SR_LOG_NONE).2 (by decide)).2.2.2.2⟩
